import Mathlib

/-!
Shallow embedding of `pxr/imaging/hdx/oitResolveTask.cpp` (class
`HdxOitResolveTask`): the OIT resolve task's buffer-lifecycle management
(`_PrepareOitBuffers`), AOV-binding preparation (`_PrepareAovBindings`),
and the per-frame `Prepare` / `Execute` entry points.

Modelling decisions:
* `GfVec2i` is a pair of mathematical integers (C++ `int`; the sizes in
  play never approach 2^31, so overflow is not modelled).
* GPU buffer-array ranges are modelled by their element count
  (`Option Int`, `none` = the shared pointer is null / not allocated;
  a freshly allocated single-buffer range holds zero elements until the
  first `Resize`).
* The `HdTaskContext` map is modelled as a record of the keys this task
  reads or writes; for the five buffer keys only the presence of the
  reference is tracked (`Bool`), since the task always publishes its own
  handles.
* Diagnostics (`TF_CODING_ERROR`, `TF_VERIFY` failure, `TF_WARN`) and the
  final draw submission (`_renderPass->Execute`) are recorded as an event
  list returned next to the updated state.
-/

/-- A 2D integer extent, as `GfVec2i`. -/
structure GfVec2i where
  x : Int
  y : Int
  deriving DecidableEq, Repr

/-- Blend operations (`HdBlendOp`), the subset relevant here. -/
inductive HdBlendOp where
  | add
  | subtract
  | reverseSubtract
  | min
  | max
  deriving DecidableEq, Repr

/-- Blend factors (`HdBlendFactor`), the subset relevant here. -/
inductive HdBlendFactor where
  | zero
  | one
  | srcAlpha
  | oneMinusSrcAlpha
  | dstAlpha
  | oneMinusDstAlpha
  deriving DecidableEq, Repr

/-- Color write masks (`HdRenderPassState::ColorMask`). -/
inductive ColorMask where
  | colorMaskNone
  | colorMaskRGB
  | colorMaskRGBA
  deriving DecidableEq, Repr

/-- One AOV binding: the bound render buffer's dimensions and whether the
binding still carries a clear value. -/
structure HdRenderPassAovBinding where
  width : Int
  height : Int
  hasClearValue : Bool
  deriving DecidableEq, Repr

/-- The slice of `HdStRenderPassState` this task configures (lines
233-257) plus the AOV bindings installed by `_PrepareAovBindings`. -/
structure HdStRenderPassState where
  enableDepthTest : Bool
  enableDepthMask : Bool
  colorMasks : List ColorMask
  blendEnabled : Bool
  blendColorOp : HdBlendOp
  blendColorSrcFactor : HdBlendFactor
  blendColorDstFactor : HdBlendFactor
  blendAlphaOp : HdBlendOp
  blendAlphaSrcFactor : HdBlendFactor
  blendAlphaDstFactor : HdBlendFactor
  renderPassShaderSet : Bool
  aovBindings : List HdRenderPassAovBinding
  deriving DecidableEq, Repr

/-- Observable side effects of one call. -/
inductive Event where
  | codingError
  | verifyFailure
  | warning
  | draw
  deriving DecidableEq, Repr

/-- The shared per-frame `HdTaskContext`, restricted to the keys this task
touches. Flag keys are presence bits; the five buffer keys record whether
a (non-null) reference is currently published under them; `aovBindings`
is `none` when the key is absent or does not hold an AOV-binding vector. -/
structure HdTaskContext where
  oitRequestFlag : Bool
  oitClearedFlag : Bool
  aovBindings : Option (List HdRenderPassAovBinding)
  oitCounterBufferBar : Bool
  oitIndexBufferBar : Bool
  oitDataBufferBar : Bool
  oitDepthBufferBar : Bool
  oitUniformBar : Bool
  deriving DecidableEq, Repr

/-- The member state of `HdxOitResolveTask`. Buffer members hold the
current element count (`none` = null handle). `uniformContent` is the
screen-size value last written into the uniform block (`none` = never
written). -/
structure HdxOitResolveTaskState where
  screenSize : GfVec2i
  counterBar : Option Int
  indexBar : Option Int
  dataBar : Option Int
  depthBar : Option Int
  uniformAllocated : Bool
  uniformContent : Option GfVec2i
  renderPass : Bool
  renderPassState : Option HdStRenderPassState
  renderPassShader : Bool
  deriving DecidableEq, Repr

/-- Result of one call: updated task state, updated shared context, and
the events emitted during the call, in order. -/
structure StepResult where
  task : HdxOitResolveTaskState
  ctx : HdTaskContext
  events : List Event
  deriving DecidableEq, Repr

namespace HdxOitResolveTask

/-- `static const int numSamples = 8;` (line 75). -/
def numSamples : Int := 8

/-- The state after the constructor: `_screenSize(0)` and all shared
pointers null (lines 49-55). -/
def initialState : HdxOitResolveTaskState :=
  { screenSize := ⟨0, 0⟩
    counterBar := none
    indexBar := none
    dataBar := none
    depthBar := none
    uniformAllocated := false
    uniformContent := none
    renderPass := false
    renderPassState := none
    renderPassShader := false }

/-- The first-call allocation block (lines 87-147): allocate the counter,
index, data and depth single-buffer ranges and the uniform range. A fresh
range holds zero elements. -/
def allocateBuffers (s : HdxOitResolveTaskState) : HdxOitResolveTaskState :=
  { s with
    counterBar := some 0
    indexBar := some 0
    dataBar := some 0
    depthBar := some 0
    uniformAllocated := true }

/-- Publishing of the five buffer references into the task context under
their well-known keys (lines 149-154). -/
def publishBuffers (ctx : HdTaskContext) : HdTaskContext :=
  { ctx with
    oitCounterBufferBar := true
    oitIndexBufferBar := true
    oitDataBufferBar := true
    oitDepthBufferBar := true
    oitUniformBar := true }

/-- The resize block (lines 162-179): store the requested size, resize the
counter buffer to `w*h + 1`, the index/data/depth buffers to
`w*h*numSamples`, and queue the new screen size into the uniform block. -/
def resizeBuffers (s : HdxOitResolveTaskState) (screenSize : GfVec2i) :
    HdxOitResolveTaskState :=
  { s with
    screenSize := screenSize
    counterBar := some (screenSize.x * screenSize.y + 1)
    indexBar := some (screenSize.x * screenSize.y * numSamples)
    dataBar := some (screenSize.x * screenSize.y * numSamples)
    depthBar := some (screenSize.x * screenSize.y * numSamples)
    uniformContent := some screenSize }

/-- `HdxOitResolveTask::_PrepareOitBuffers` (lines 69-180). -/
def prepareOitBuffers (s : HdxOitResolveTaskState) (ctx : HdTaskContext)
    (screenSize : GfVec2i) : StepResult :=
  if ¬(screenSize.x ≥ 0 ∧ screenSize.y ≥ 0) then
    { task := s, ctx := ctx, events := [Event.codingError] }
  else
    let s1 := if s.counterBar = none then allocateBuffers s else s
    let ctx1 := publishBuffers ctx
    if screenSize.x > s1.screenSize.x ∨ screenSize.y > s1.screenSize.y then
      { task := resizeBuffers s1 screenSize, ctx := ctx1, events := [] }
    else
      { task := s1, ctx := ctx1, events := [] }

/-- `HdxOitResolveTask::_PrepareAovBindings` (lines 182-201): read the AOV
bindings from the context (empty if the key is absent or holds another
type), drop every clear value, and install the result on the render-pass
state. -/
def prepareAovBindings (s : HdxOitResolveTaskState) (ctx : HdTaskContext) :
    HdxOitResolveTaskState :=
  let aovs := (ctx.aovBindings.getD []).map fun b => { b with hasClearValue := false }
  match s.renderPassState with
  | none => s
  | some rps => { s with renderPassState := some { rps with aovBindings := aovs } }

/-- The render-pass state as configured by the one-time initialization
(lines 233-257): constructed, then depth test and depth mask disabled,
RGBA color mask, blending enabled with the premultiplied-alpha blend
equation, and the resolve shader bound. -/
def initialRenderPassState : HdStRenderPassState :=
  { enableDepthTest := false
    enableDepthMask := false
    colorMasks := [ColorMask.colorMaskRGBA]
    blendEnabled := true
    blendColorOp := HdBlendOp.add
    blendColorSrcFactor := HdBlendFactor.one
    blendColorDstFactor := HdBlendFactor.oneMinusSrcAlpha
    blendAlphaOp := HdBlendOp.add
    blendAlphaSrcFactor := HdBlendFactor.one
    blendAlphaDstFactor := HdBlendFactor.oneMinusSrcAlpha
    renderPassShaderSet := true
    aovBindings := [] }

/-- The one-time initialization block of `Prepare` (lines 219-260).
`hdStBackend` is whether `dynamic_cast<HdStRenderDelegate*>` succeeds;
`none` means the `TF_VERIFY` failed and `Prepare` returns. -/
def initStep (hdStBackend : Bool) (s : HdxOitResolveTaskState) :
    Option HdxOitResolveTaskState :=
  if s.renderPass then some s
  else if ¬hdStBackend then none
  else some
    { s with
      renderPass := true
      renderPassState := some initialRenderPassState
      renderPassShader := true }

/-- The screen-size computation of `Prepare` (lines 267-284): dimensions
of the first AOV binding when there is one, otherwise the 2048x2048
fallback, warning when the tracked width differs from the fallback. -/
def computeScreenSize (s : HdxOitResolveTaskState)
    (aovs : List HdRenderPassAovBinding) : GfVec2i × List Event :=
  match aovs with
  | b :: _ => (⟨b.width, b.height⟩, [])
  | [] =>
    (⟨2048, 2048⟩, if s.screenSize.x ≠ 2048 then [Event.warning] else [])

/-- `HdxOitResolveTask::Prepare` (lines 203-287). -/
def Prepare (hdStBackend : Bool) (s : HdxOitResolveTaskState)
    (ctx : HdTaskContext) : StepResult :=
  if ¬ctx.oitRequestFlag then
    { task := s, ctx := ctx, events := [] }
  else
    let ctx1 := { ctx with oitClearedFlag := false }
    match initStep hdStBackend s with
    | none => { task := s, ctx := ctx1, events := [Event.verifyFailure] }
    | some s1 =>
      let s2 := prepareAovBindings s1 ctx1
      let aovs := (s2.renderPassState.map HdStRenderPassState.aovBindings).getD []
      let sizeAndWarn := computeScreenSize s2 aovs
      let r := prepareOitBuffers s2 ctx1 sizeAndWarn.1
      { task := r.task, ctx := r.ctx, events := sizeAndWarn.2 ++ r.events }

/-- Modelled from the spec: `HdxOitBufferAccessor::AddOitBufferBindings`
lives in `oitBufferAccessor.cpp`, which is not under `src/`. Per the spec
it binds the four OIT buffers (counter, index, data, depth) from shared
state and fails when any reference is absent. -/
def addOitBufferBindings (ctx : HdTaskContext) : Bool :=
  ctx.oitCounterBufferBar && ctx.oitIndexBufferBar &&
    ctx.oitDataBufferBar && ctx.oitDepthBufferBar

/-- `HdxOitResolveTask::Execute` (lines 289-317). -/
def Execute (s : HdxOitResolveTaskState) (ctx : HdTaskContext) : StepResult :=
  if ¬ctx.oitRequestFlag then
    { task := s, ctx := ctx, events := [] }
  else
    let ctx1 := { ctx with oitRequestFlag := false, oitClearedFlag := false }
    match s.renderPassState with
    | none => { task := s, ctx := ctx1, events := [Event.verifyFailure] }
    | some _ =>
      if ¬s.renderPassShader then
        { task := s, ctx := ctx1, events := [Event.verifyFailure] }
      else if ¬addOitBufferBindings ctx1 then
        { task := s, ctx := ctx1, events := [Event.codingError] }
      else
        { task := s, ctx := ctx1, events := [Event.draw] }

end HdxOitResolveTask

open HdxOitResolveTask

/-- An empty task context: no flags, no AOV key, no buffer references. -/
def emptyCtx : HdTaskContext :=
  { oitRequestFlag := false
    oitClearedFlag := false
    aovBindings := none
    oitCounterBufferBar := false
    oitIndexBufferBar := false
    oitDataBufferBar := false
    oitDepthBufferBar := false
    oitUniformBar := false }

/-- A context in which the accumulation stage has requested an OIT resolve. -/
def requestCtx : HdTaskContext := { emptyCtx with oitRequestFlag := true }

lemma allocateBuffers_screenSize (s : HdxOitResolveTaskState) :
    (allocateBuffers s).screenSize = s.screenSize := rfl

lemma prepareOitBuffers_resize_eq (s : HdxOitResolveTaskState)
    (ctx : HdTaskContext) (v : GfVec2i) (hx : 0 ≤ v.x) (hy : 0 ≤ v.y)
    (hres : v.x > s.screenSize.x ∨ v.y > s.screenSize.y) :
    prepareOitBuffers s ctx v =
      { task := resizeBuffers (if s.counterBar = none then allocateBuffers s else s) v
        ctx := publishBuffers ctx
        events := [] } := by
  unfold prepareOitBuffers
  rw [if_neg (not_not.mpr ⟨hx, hy⟩)]
  have h1 : (if s.counterBar = none then allocateBuffers s else s).screenSize
      = s.screenSize := by
    split <;> rfl
  rw [if_pos (by rw [h1]; exact hres)]

lemma prepareOitBuffers_noresize_eq (s : HdxOitResolveTaskState)
    (ctx : HdTaskContext) (v : GfVec2i) (hx : 0 ≤ v.x) (hy : 0 ≤ v.y)
    (hres : ¬(v.x > s.screenSize.x ∨ v.y > s.screenSize.y)) :
    prepareOitBuffers s ctx v =
      { task := if s.counterBar = none then allocateBuffers s else s
        ctx := publishBuffers ctx
        events := [] } := by
  unfold prepareOitBuffers
  rw [if_neg (not_not.mpr ⟨hx, hy⟩)]
  have h1 : (if s.counterBar = none then allocateBuffers s else s).screenSize
      = s.screenSize := by
    split <;> rfl
  rw [if_neg (by rw [h1]; exact hres)]

/-- Claim C1: every `_PrepareOitBuffers` call that triggers a resize with
requested screen size `(w, h)` leaves the counter buffer with exactly
`w*h + 1` elements and the index, data and depth buffers with exactly
`w*h*8` elements (`numSamples = 8`). -/
theorem resize_sets_exact_buffer_lengths (s : HdxOitResolveTaskState)
    (ctx : HdTaskContext) (v : GfVec2i) (hx : 0 ≤ v.x) (hy : 0 ≤ v.y)
    (hres : v.x > s.screenSize.x ∨ v.y > s.screenSize.y) :
    (prepareOitBuffers s ctx v).task.counterBar = some (v.x * v.y + 1) ∧
    (prepareOitBuffers s ctx v).task.indexBar = some (v.x * v.y * 8) ∧
    (prepareOitBuffers s ctx v).task.dataBar = some (v.x * v.y * 8) ∧
    (prepareOitBuffers s ctx v).task.depthBar = some (v.x * v.y * 8) := by
  rw [prepareOitBuffers_resize_eq s ctx v hx hy hres]
  refine ⟨rfl, rfl, rfl, rfl⟩

theorem resize_sets_exact_buffer_lengths_witness :
    (prepareOitBuffers initialState emptyCtx ⟨100, 50⟩).task.counterBar = some 5001 ∧
    (prepareOitBuffers initialState emptyCtx ⟨100, 50⟩).task.indexBar = some 40000 ∧
    (prepareOitBuffers initialState emptyCtx ⟨100, 50⟩).task.dataBar = some 40000 ∧
    (prepareOitBuffers initialState emptyCtx ⟨100, 50⟩).task.depthBar = some 40000 := by
  have h := resize_sets_exact_buffer_lengths initialState emptyCtx ⟨100, 50⟩
    (by decide) (by decide) (Or.inl (by decide))
  refine ⟨by simpa using h.1, by simpa using h.2.1, by simpa using h.2.2.1,
    by simpa using h.2.2.2⟩

/-- Claim C6: a `_PrepareOitBuffers` call whose requested screen size has a
negative width or height reports a coding error and is otherwise a complete
no-op: task state and shared context are returned unchanged. -/
theorem negative_screen_size_noop (s : HdxOitResolveTaskState)
    (ctx : HdTaskContext) (v : GfVec2i) (h : v.x < 0 ∨ v.y < 0) :
    prepareOitBuffers s ctx v =
      { task := s, ctx := ctx, events := [Event.codingError] } := by
  unfold prepareOitBuffers
  rw [if_pos (by omega)]

theorem negative_screen_size_noop_witness :
    prepareOitBuffers initialState emptyCtx ⟨-1, 5⟩ =
      { task := initialState, ctx := emptyCtx, events := [Event.codingError] } :=
  negative_screen_size_noop initialState emptyCtx ⟨-1, 5⟩ (Or.inl (by decide))

/-- Claim C8, counterexample: on a call with requested size `(-1, 0)` the
early validity return fires before the publish block, so none of the five
buffer references is published into the shared context. -/
theorem publish_skipped_on_invalid_size_cex :
    (prepareOitBuffers initialState emptyCtx ⟨-1, 0⟩).ctx.oitCounterBufferBar = false ∧
    (prepareOitBuffers initialState emptyCtx ⟨-1, 0⟩).ctx.oitIndexBufferBar = false ∧
    (prepareOitBuffers initialState emptyCtx ⟨-1, 0⟩).ctx.oitDataBufferBar = false ∧
    (prepareOitBuffers initialState emptyCtx ⟨-1, 0⟩).ctx.oitDepthBufferBar = false ∧
    (prepareOitBuffers initialState emptyCtx ⟨-1, 0⟩).ctx.oitUniformBar = false := by
  decide

/-- Claim C8, amended: on every `_PrepareOitBuffers` call whose requested
size is non-negative in both components, references to all five buffers
(counter, index, data, depth, uniform) are published into the shared state
under their well-known keys. -/
theorem publishes_buffers_on_valid_call (s : HdxOitResolveTaskState)
    (ctx : HdTaskContext) (v : GfVec2i) (hx : 0 ≤ v.x) (hy : 0 ≤ v.y) :
    (prepareOitBuffers s ctx v).ctx = publishBuffers ctx := by
  unfold prepareOitBuffers
  rw [if_neg (not_not.mpr ⟨hx, hy⟩)]
  dsimp only
  split <;> split <;> rfl

theorem publishes_buffers_on_valid_call_witness :
    (prepareOitBuffers initialState emptyCtx ⟨0, 0⟩).ctx = publishBuffers emptyCtx :=
  publishes_buffers_on_valid_call initialState emptyCtx ⟨0, 0⟩ (by decide) (by decide)

/-- Claim C2, counterexample: an `Execute` call on a context holding the
cleared flag but not the request flag returns at the request check and
leaves the cleared flag present, contradicting the claim that both flags
are absent after any `Execute` call. -/
theorem execute_leaves_cleared_flag_cex :
    (Execute initialState { emptyCtx with oitClearedFlag := true }).ctx.oitClearedFlag
      = true := by decide

/-- Claim C2, amended: after any `Execute` call the request flag is absent;
the cleared flag is also absent whenever the request flag was present at
entry; when the request flag was absent, `Execute` returns immediately and
leaves the context (including a present cleared flag) untouched. -/
theorem execute_flag_clearing (s : HdxOitResolveTaskState) (ctx : HdTaskContext) :
    (Execute s ctx).ctx.oitRequestFlag = false ∧
    (ctx.oitRequestFlag = true → (Execute s ctx).ctx.oitClearedFlag = false) ∧
    (ctx.oitRequestFlag = false →
      Execute s ctx = { task := s, ctx := ctx, events := [] }) := by
  unfold Execute
  by_cases hreq : ctx.oitRequestFlag = true
  · rw [if_neg (by simp [hreq])]
    dsimp only
    refine ⟨?_, fun _ => ?_, fun hf => absurd hreq (by simp [hf])⟩
    · split
      · rfl
      · split
        · rfl
        · split <;> rfl
    · split
      · rfl
      · split
        · rfl
        · split <;> rfl
  · rw [if_pos (by simpa using hreq)]
    simp only [Bool.not_eq_true] at hreq
    exact ⟨hreq, fun h => absurd h (by simp [hreq]), fun _ => rfl⟩

/-- Witness for the amended claim C2 at a concrete input. -/
theorem execute_flag_clearing_witness :
    (Execute initialState requestCtx).ctx.oitRequestFlag = false ∧
    (Execute initialState requestCtx).ctx.oitClearedFlag = false :=
  ⟨(execute_flag_clearing initialState requestCtx).1,
   (execute_flag_clearing initialState requestCtx).2.1 rfl⟩

/-- Claim C10: when `Execute` runs with the request flag present and then
aborts before drawing (render-pass state missing, shader missing, or an OIT
buffer reference absent from shared state), the request and cleared flags
have already been erased and no draw is issued; task state is unchanged. -/
theorem execute_abort_flags_already_erased (s : HdxOitResolveTaskState)
    (ctx : HdTaskContext) (hreq : ctx.oitRequestFlag = true)
    (habort : s.renderPassState = none ∨ s.renderPassShader = false ∨
      addOitBufferBindings ctx = false) :
    (Execute s ctx).ctx.oitRequestFlag = false ∧
    (Execute s ctx).ctx.oitClearedFlag = false ∧
    Event.draw ∉ (Execute s ctx).events ∧
    (Execute s ctx).task = s := by
  unfold Execute
  rw [if_neg (by simp [hreq])]
  dsimp only
  rcases habort with h | h | h
  · rw [h]
    exact ⟨rfl, rfl, by simp, rfl⟩
  · split
    · exact ⟨rfl, rfl, by simp, rfl⟩
    · rw [if_pos (by simp [h])]
      exact ⟨rfl, rfl, by simp, rfl⟩
  · split
    · exact ⟨rfl, rfl, by simp, rfl⟩
    · split
      · exact ⟨rfl, rfl, by simp, rfl⟩
      · simp only [addOitBufferBindings] at h ⊢
        rw [if_pos (by simp [h])]
        exact ⟨rfl, rfl, by simp, rfl⟩

theorem execute_abort_flags_already_erased_witness :
    (Execute initialState requestCtx).ctx.oitRequestFlag = false ∧
    (Execute initialState requestCtx).ctx.oitClearedFlag = false ∧
    Event.draw ∉ (Execute initialState requestCtx).events ∧
    (Execute initialState requestCtx).task = initialState :=
  execute_abort_flags_already_erased initialState requestCtx rfl (Or.inl rfl)

lemma prepareOitBuffers_renderPassState (s : HdxOitResolveTaskState)
    (ctx : HdTaskContext) (v : GfVec2i) :
    (prepareOitBuffers s ctx v).task.renderPassState = s.renderPassState := by
  unfold prepareOitBuffers
  split
  · rfl
  · dsimp only
    split <;> split <;> rfl

/-- Claim C4, counterexample: preparing with `(10, 10)` and then `(20, 5)`
triggers a resize (width grew) but stores the requested size `(20, 5)`, not
the component-wise maximum `(20, 10)`, and sizes the list buffers from the
requested size (`20*5*8 = 800`), not from the maximum (`20*10*8 = 1600`). -/
theorem resize_not_componentwise_max_cex :
    ((prepareOitBuffers (prepareOitBuffers initialState emptyCtx ⟨10, 10⟩).task
        emptyCtx ⟨20, 5⟩).task.screenSize = ⟨20, 5⟩ ∧
     (⟨20, 5⟩ : GfVec2i) ≠ ⟨20, 10⟩ ∧
     (prepareOitBuffers (prepareOitBuffers initialState emptyCtx ⟨10, 10⟩).task
        emptyCtx ⟨20, 5⟩).task.indexBar = some 800 ∧
     some (800 : Int) ≠ some ((20 : Int) * 10 * 8)) := by
  decide

/-- Claim C4, amended: on a `_PrepareOitBuffers` call whose valid requested
size exceeds the tracked size in some component, the new tracked screen
size is exactly the requested size, the four list buffers are sized from
the requested size, and the uniform block is rewritten with it. -/
theorem resize_tracks_requested_size (s : HdxOitResolveTaskState)
    (ctx : HdTaskContext) (v : GfVec2i) (hx : 0 ≤ v.x) (hy : 0 ≤ v.y)
    (hres : v.x > s.screenSize.x ∨ v.y > s.screenSize.y) :
    (prepareOitBuffers s ctx v).task.screenSize = v ∧
    (prepareOitBuffers s ctx v).task.counterBar = some (v.x * v.y + 1) ∧
    (prepareOitBuffers s ctx v).task.indexBar = some (v.x * v.y * 8) ∧
    (prepareOitBuffers s ctx v).task.dataBar = some (v.x * v.y * 8) ∧
    (prepareOitBuffers s ctx v).task.depthBar = some (v.x * v.y * 8) ∧
    (prepareOitBuffers s ctx v).task.uniformContent = some v := by
  rw [prepareOitBuffers_resize_eq s ctx v hx hy hres]
  exact ⟨rfl, rfl, rfl, rfl, rfl, rfl⟩

theorem resize_tracks_requested_size_witness :
    (prepareOitBuffers initialState emptyCtx ⟨20, 5⟩).task.screenSize = ⟨20, 5⟩ ∧
    (prepareOitBuffers initialState emptyCtx ⟨20, 5⟩).task.uniformContent
      = some ⟨20, 5⟩ :=
  ⟨(resize_tracks_requested_size initialState emptyCtx ⟨20, 5⟩ (by decide)
      (by decide) (Or.inl (by decide))).1,
   (resize_tracks_requested_size initialState emptyCtx ⟨20, 5⟩ (by decide)
      (by decide) (Or.inl (by decide))).2.2.2.2.2⟩

/-- Claim C5, counterexample: with an unsupported backend, a first `Prepare`
with the request flag set reports a verification failure, and a second
`Prepare` reports it again (so the failure is not reported exactly once);
moreover the call is not state-free: it erases the cleared flag. -/
theorem unsupported_backend_reports_repeatedly_cex :
    (Prepare false initialState
        { emptyCtx with oitRequestFlag := true, oitClearedFlag := true }).events
      = [Event.verifyFailure] ∧
    (Prepare false initialState
        { emptyCtx with oitRequestFlag := true, oitClearedFlag := true }).ctx.oitClearedFlag
      = false ∧
    (Prepare false
        (Prepare false initialState
          { emptyCtx with oitRequestFlag := true, oitClearedFlag := true }).task
        { emptyCtx with oitRequestFlag := true, oitClearedFlag := true }).events
      = [Event.verifyFailure] := by
  decide

/-- Claim C5, amended: with an unsupported backend the stage stays
permanently uninitialized: `Prepare` and `Execute` never change the task's
own state and never draw, but the verification failure is re-reported on
every call that has the request flag set, and such calls still consume the
request/cleared flags from the shared context. -/
theorem unsupported_backend_disabled (s : HdxOitResolveTaskState)
    (ctx : HdTaskContext) (hrp : s.renderPass = false)
    (hrps : s.renderPassState = none) :
    (Prepare false s ctx).task = s ∧
    Event.draw ∉ (Prepare false s ctx).events ∧
    (ctx.oitRequestFlag = true →
      (Prepare false s ctx).events = [Event.verifyFailure] ∧
      (Prepare false s ctx).ctx = { ctx with oitClearedFlag := false }) ∧
    (Execute s ctx).task = s ∧
    Event.draw ∉ (Execute s ctx).events ∧
    (ctx.oitRequestFlag = true →
      (Execute s ctx).events = [Event.verifyFailure] ∧
      (Execute s ctx).ctx
        = { ctx with oitRequestFlag := false, oitClearedFlag := false }) := by
  have hinit : initStep false s = none := by simp [initStep, hrp]
  by_cases hreq : ctx.oitRequestFlag = true
  · unfold Prepare Execute
    rw [if_neg (by simp [hreq]), if_neg (by simp [hreq]), hinit, hrps]
    exact ⟨rfl, by simp, fun _ => ⟨rfl, rfl⟩, rfl, by simp, fun _ => ⟨rfl, rfl⟩⟩
  · unfold Prepare Execute
    rw [if_pos (by simpa using hreq), if_pos (by simpa using hreq)]
    exact ⟨rfl, by simp, fun h => absurd h hreq, rfl, by simp,
      fun h => absurd h hreq⟩

theorem unsupported_backend_disabled_witness :
    (Prepare false initialState requestCtx).task = initialState ∧
    (Prepare false initialState requestCtx).events = [Event.verifyFailure] ∧
    (Execute initialState requestCtx).events = [Event.verifyFailure] :=
  ⟨(unsupported_backend_disabled initialState requestCtx rfl rfl).1,
   ((unsupported_backend_disabled initialState requestCtx rfl rfl).2.2.1 rfl).1,
   ((unsupported_backend_disabled initialState requestCtx rfl rfl).2.2.2.2.2 rfl).1⟩

/-- Claim C7: the one-time transition to the ready state configures the
render-pass state with depth test disabled, depth mask disabled, full RGBA
color mask, blending enabled, and both RGB and alpha blend equations set to
additive combine with source factor one and destination factor
one-minus-source-alpha. -/
theorem ready_transition_configures_render_pass_state
    (s : HdxOitResolveTaskState) (ctx : HdTaskContext)
    (hreq : ctx.oitRequestFlag = true) (hrp : s.renderPass = false) :
    ∃ rps, (Prepare true s ctx).task.renderPassState = some rps ∧
      rps.enableDepthTest = false ∧
      rps.enableDepthMask = false ∧
      rps.colorMasks = [ColorMask.colorMaskRGBA] ∧
      rps.blendEnabled = true ∧
      rps.blendColorOp = HdBlendOp.add ∧
      rps.blendColorSrcFactor = HdBlendFactor.one ∧
      rps.blendColorDstFactor = HdBlendFactor.oneMinusSrcAlpha ∧
      rps.blendAlphaOp = HdBlendOp.add ∧
      rps.blendAlphaSrcFactor = HdBlendFactor.one ∧
      rps.blendAlphaDstFactor = HdBlendFactor.oneMinusSrcAlpha := by
  have hinit : initStep true s = some
      { s with renderPass := true
               renderPassState := some initialRenderPassState
               renderPassShader := true } := by
    simp [initStep, hrp]
  unfold Prepare
  rw [if_neg (by simp [hreq]), hinit]
  dsimp only
  rw [prepareOitBuffers_renderPassState]
  exact ⟨_, rfl, rfl, rfl, rfl, rfl, rfl, rfl, rfl, rfl, rfl, rfl⟩

theorem ready_transition_configures_render_pass_state_witness :
    ∃ rps, (Prepare true initialState requestCtx).task.renderPassState = some rps ∧
      rps.enableDepthTest = false ∧
      rps.enableDepthMask = false ∧
      rps.colorMasks = [ColorMask.colorMaskRGBA] ∧
      rps.blendEnabled = true ∧
      rps.blendColorOp = HdBlendOp.add ∧
      rps.blendColorSrcFactor = HdBlendFactor.one ∧
      rps.blendColorDstFactor = HdBlendFactor.oneMinusSrcAlpha ∧
      rps.blendAlphaOp = HdBlendOp.add ∧
      rps.blendAlphaSrcFactor = HdBlendFactor.one ∧
      rps.blendAlphaDstFactor = HdBlendFactor.oneMinusSrcAlpha :=
  ready_transition_configures_render_pass_state initialState requestCtx rfl rfl

lemma prepareOitBuffers_events_valid (s : HdxOitResolveTaskState)
    (ctx : HdTaskContext) (v : GfVec2i) (hx : 0 ≤ v.x) (hy : 0 ≤ v.y) :
    (prepareOitBuffers s ctx v).events = [] := by
  unfold prepareOitBuffers
  rw [if_neg (not_not.mpr ⟨hx, hy⟩)]
  dsimp only
  split <;> split <;> rfl

lemma prepareOitBuffers_task_screenSize (s : HdxOitResolveTaskState)
    (ctx : HdTaskContext) (v : GfVec2i) (hx : 0 ≤ v.x) (hy : 0 ≤ v.y) :
    (prepareOitBuffers s ctx v).task.screenSize =
      if v.x > s.screenSize.x ∨ v.y > s.screenSize.y then v else s.screenSize := by
  by_cases h : v.x > s.screenSize.x ∨ v.y > s.screenSize.y
  · rw [prepareOitBuffers_resize_eq s ctx v hx hy h, if_pos h]
    rfl
  · rw [prepareOitBuffers_noresize_eq s ctx v hx hy h, if_neg h]
    dsimp only
    split <;> rfl

lemma prepareAovBindings_screenSize (s : HdxOitResolveTaskState)
    (ctx : HdTaskContext) :
    (prepareAovBindings s ctx).screenSize = s.screenSize := by
  unfold prepareAovBindings
  split <;> rfl

lemma prepareAovBindings_aovs_empty (s : HdxOitResolveTaskState)
    (ctx : HdTaskContext)
    (haov : ctx.aovBindings = none ∨ ctx.aovBindings = some []) :
    ((prepareAovBindings s ctx).renderPassState.map
      HdStRenderPassState.aovBindings).getD [] = [] := by
  unfold prepareAovBindings
  rcases haov with h | h <;> split <;> simp_all

/-- Claim C3, counterexample: with `S1 = S2 = (0, 0)` (non-negative and
component-wise ordered) neither call triggers a resize, so the counter
buffer keeps its freshly-allocated empty length `0` instead of the length
`0*0 + 1 = 1` computed from `S2`. -/
theorem prepare_zero_size_lengths_cex :
    (prepareOitBuffers (prepareOitBuffers initialState emptyCtx ⟨0, 0⟩).task
       (prepareOitBuffers initialState emptyCtx ⟨0, 0⟩).ctx ⟨0, 0⟩).task.counterBar
      = some 0 ∧
    some (0 : Int) ≠ some ((0 : Int) * 0 + 1) := by
  decide

/-- Claim C3, amended: for non-negative sizes `S1 <= S2` component-wise with
`S2` nonzero in some component, preparing from a fresh task with `S1` then
`S2`, or with `S2` then `S1`, leaves all four buffer lengths computed from
`S2`; lengths never shrink across the two calls. -/
theorem prepare_grow_keeps_larger_lengths (a b : GfVec2i)
    (c1 c2 c3 c4 : HdTaskContext)
    (hax : 0 ≤ a.x) (hay : 0 ≤ a.y)
    (hx : a.x ≤ b.x) (hy : a.y ≤ b.y)
    (hpos : 0 < b.x ∨ 0 < b.y) :
    ((prepareOitBuffers (prepareOitBuffers initialState c1 a).task c2 b).task.counterBar
       = some (b.x * b.y + 1) ∧
     (prepareOitBuffers (prepareOitBuffers initialState c1 a).task c2 b).task.indexBar
       = some (b.x * b.y * 8) ∧
     (prepareOitBuffers (prepareOitBuffers initialState c1 a).task c2 b).task.dataBar
       = some (b.x * b.y * 8) ∧
     (prepareOitBuffers (prepareOitBuffers initialState c1 a).task c2 b).task.depthBar
       = some (b.x * b.y * 8)) ∧
    ((prepareOitBuffers (prepareOitBuffers initialState c3 b).task c4 a).task.counterBar
       = some (b.x * b.y + 1) ∧
     (prepareOitBuffers (prepareOitBuffers initialState c3 b).task c4 a).task.indexBar
       = some (b.x * b.y * 8) ∧
     (prepareOitBuffers (prepareOitBuffers initialState c3 b).task c4 a).task.dataBar
       = some (b.x * b.y * 8) ∧
     (prepareOitBuffers (prepareOitBuffers initialState c3 b).task c4 a).task.depthBar
       = some (b.x * b.y * 8)) := by
  have hbx : 0 ≤ b.x := le_trans hax hx
  have hby : 0 ≤ b.y := le_trans hay hy
  constructor
  · -- order: a first, then b
    by_cases ha : 0 < a.x ∨ 0 < a.y
    · have e1 : prepareOitBuffers initialState c1 a =
          { task := resizeBuffers (allocateBuffers initialState) a
            ctx := publishBuffers c1
            events := [] } := by
        rw [prepareOitBuffers_resize_eq initialState c1 a hax hay ha]
        rfl
      rw [e1]
      by_cases hb : b.x > a.x ∨ b.y > a.y
      · rw [prepareOitBuffers_resize_eq _ c2 b hbx hby hb]
        exact ⟨rfl, rfl, rfl, rfl⟩
      · have hab : a = b := by
          obtain ⟨ax, ay⟩ := a
          obtain ⟨bx, by'⟩ := b
          simp only [GfVec2i.mk.injEq]
          simp only [not_or, not_lt] at hb
          dsimp only at hx hy hb
          exact ⟨by omega, by omega⟩
        subst hab
        rw [prepareOitBuffers_noresize_eq _ c2 a hbx hby hb]
        dsimp only
        rw [if_neg (by simp [resizeBuffers])]
        exact ⟨rfl, rfl, rfl, rfl⟩
    · -- a is (0, 0): the first call allocates but does not resize
      have ha0 : ¬(a.x > initialState.screenSize.x ∨ a.y > initialState.screenSize.y) := ha
      have e1 : prepareOitBuffers initialState c1 a =
          { task := allocateBuffers initialState
            ctx := publishBuffers c1
            events := [] } := by
        rw [prepareOitBuffers_noresize_eq initialState c1 a hax hay ha0]
        rfl
      rw [e1]
      rw [prepareOitBuffers_resize_eq _ c2 b hbx hby hpos]
      exact ⟨rfl, rfl, rfl, rfl⟩
  · -- order: b first, then a
    have e1 : prepareOitBuffers initialState c3 b =
        { task := resizeBuffers (allocateBuffers initialState) b
          ctx := publishBuffers c3
          events := [] } := by
      rw [prepareOitBuffers_resize_eq initialState c3 b hbx hby hpos]
      rfl
    rw [e1]
    have hnr : ¬(a.x > (resizeBuffers (allocateBuffers initialState) b).screenSize.x ∨
        a.y > (resizeBuffers (allocateBuffers initialState) b).screenSize.y) := by
      show ¬(a.x > b.x ∨ a.y > b.y)
      omega
    rw [prepareOitBuffers_noresize_eq _ c4 a hax hay hnr]
    dsimp only
    rw [if_neg (by simp [resizeBuffers])]
    exact ⟨rfl, rfl, rfl, rfl⟩

theorem prepare_grow_keeps_larger_lengths_witness :
    (prepareOitBuffers (prepareOitBuffers initialState emptyCtx ⟨30, 20⟩).task
       emptyCtx ⟨40, 25⟩).task.counterBar = some 1001 ∧
    (prepareOitBuffers (prepareOitBuffers initialState emptyCtx ⟨40, 25⟩).task
       emptyCtx ⟨30, 20⟩).task.counterBar = some 1001 := by
  have h := prepare_grow_keeps_larger_lengths ⟨30, 20⟩ ⟨40, 25⟩
    emptyCtx emptyCtx emptyCtx emptyCtx
    (by decide) (by decide) (by decide) (by decide) (Or.inl (by decide))
  exact ⟨by simpa using h.1.1, by simpa using h.2.1⟩

/-- Claim C9, counterexample: after a frame whose AOV render target is
2048 wide (tracked width becomes 2048), a following frame with the request
flag set and no AOV bindings is the first fallback, yet emits no warning,
because the warning condition compares the tracked width against 2048
rather than tracking whether a fallback already happened. -/
theorem fallback_warning_not_first_time_cex :
    (Prepare true
        (Prepare true initialState { emptyCtx with oitRequestFlag := true, aovBindings := some [⟨2048, 768, true⟩] }).task
        requestCtx).events = [] ∧
    Event.warning ∉
      (Prepare true initialState { emptyCtx with oitRequestFlag := true, aovBindings := some [⟨2048, 768, true⟩] }).events := by
  decide

/-- Claim C9, amended: on a `Prepare` call with the request flag set and an
empty or absent AOV binding set (supported backend), the fallback screen
size `(2048, 2048)` is used for the buffers, and a warning is emitted if
and only if the tracked width at entry differs from 2048 - hence exactly
once in a run consisting solely of such fallback frames, but possibly never
or repeatedly in runs that interleave AOV frames. -/
theorem fallback_screen_size_and_warning (s : HdxOitResolveTaskState)
    (ctx : HdTaskContext) (hreq : ctx.oitRequestFlag = true)
    (haov : ctx.aovBindings = none ∨ ctx.aovBindings = some []) :
    (Event.warning ∈ (Prepare true s ctx).events ↔ s.screenSize.x ≠ 2048) ∧
    (Prepare true s ctx).task.screenSize =
      (if 2048 > s.screenSize.x ∨ 2048 > s.screenSize.y
       then (⟨2048, 2048⟩ : GfVec2i) else s.screenSize) := by
  unfold Prepare
  rw [if_neg (by simp [hreq])]
  by_cases hrp : s.renderPass = true
  · have hinit : initStep true s = some s := by simp [initStep, hrp]
    rw [hinit]
    dsimp only
    rw [prepareAovBindings_aovs_empty _ { ctx with oitClearedFlag := false } haov]
    simp only [computeScreenSize]
    rw [prepareOitBuffers_events_valid _ _ _ (by decide) (by decide)]
    rw [prepareOitBuffers_task_screenSize _ _ _ (by decide) (by decide)]
    rw [prepareAovBindings_screenSize]
    dsimp only
    constructor
    · by_cases hw : s.screenSize.x = 2048 <;> simp [hw]
    · rfl
  · have hinit : initStep true s = some
        { s with renderPass := true
                 renderPassState := some initialRenderPassState
                 renderPassShader := true } := by
      simp [initStep, hrp]
    rw [hinit]
    dsimp only
    rw [prepareAovBindings_aovs_empty _ { ctx with oitClearedFlag := false } haov]
    simp only [computeScreenSize]
    rw [prepareOitBuffers_events_valid _ _ _ (by decide) (by decide)]
    rw [prepareOitBuffers_task_screenSize _ _ _ (by decide) (by decide)]
    rw [prepareAovBindings_screenSize]
    dsimp only
    constructor
    · by_cases hw : s.screenSize.x = 2048 <;> simp [hw]
    · rfl

theorem fallback_screen_size_and_warning_witness :
    Event.warning ∈ (Prepare true initialState requestCtx).events ∧
    (Prepare true initialState requestCtx).task.screenSize = ⟨2048, 2048⟩ := by
  have h := fallback_screen_size_and_warning initialState requestCtx rfl (Or.inl rfl)
  exact ⟨h.1.mpr (by decide), by simpa using h.2⟩
